import Mathlib

/-
Verification of the auto-commit CLI (src/auto_commit/cli.py).

The `generate` command is a straight-line orchestration pipeline over a few
external collaborators (git operations, a credential store, an LLM client,
and interactive prompts).  We embed it shallowly: the collaborators become
fields of an `Env` record carrying the answer each call would return, and a
run of the command becomes a pure function from the parsed CLI arguments and
that environment to an `Outcome`: a process exit code together with the
ordered trace of observable events (external calls, stdout writes, stderr
writes).

Conventions:
  - `GEMINI_API_KEY` (from auto_commit.config) is a string; the empty string
    models "unset" (Python falsiness of None/"" at `if not current_key`).
  - `get_git_diff` is modelled as a function of its `staged` argument so that
    "the diff call passes staged=True" is visible in the trace.
  - `save_key_to_env` returns `Env.persist_ok`; cli.py discards that return
    value, so the model never reads the field.
  - every event except `Ev.stdoutWrite` renders on stderr: the rich Console
    is constructed with `stderr=True` (cli.py line 39), and Prompt/Confirm
    are passed that console.
-/

namespace AutoCommit

/-- The closed error taxonomy of the LLM client boundary.  The first four
match the four dedicated exception classes imported from
auto_commit.llm_client; `clientError` is the `LLMClientError` base class
(generic client error); `unexpected` is any other Python exception reaching
the defensive `except Exception` handler. -/
inductive LLMError where
  | apiKeyMissing
  | apiKeyInvalid
  | quotaExceeded
  | apiRequest
  | clientError
  | unexpected
deriving DecidableEq, Repr

/-- What `LLMClient(...)` construction plus `generate_commit_message(diff)`
does when reached: either return a message string or raise one error kind. -/
inductive LLMResult where
  | success (message : String)
  | failure (e : LLMError)
deriving DecidableEq, Repr

/-- Observable events of one run, in program order.  All but `stdoutWrite`
are rendered on the stderr console or are external calls. -/
inductive Ev where
  | statusSpin (text : String)
  | stageAll
  | getDiff (staged : Bool)
  | backend (provider : String) (model : Option String) (api_key : String) (diff : String)
  | promptKey
  | persistKey (name : String) (value : String)
  | confirmAsk
  | commitCall (message : String)
  | panelShow (message : String)
  | llmErrorReport (e : LLMError)
  | stdoutWrite (s : String)
  | stderrWrite (s : String)
deriving DecidableEq, Repr

/-- Parsed options of the `generate` command (cli.py lines 49-64). -/
structure Args where
  provider : String
  model : Option String
  yes : Bool
  staged : Bool
  print_only : Bool
deriving DecidableEq, Repr

/-- The typer defaults of the `generate` command. -/
def Args.defaults : Args :=
  { provider := "gemini", model := none, yes := false, staged := true, print_only := false }

/-- Answers of the external collaborators for one invocation. -/
structure Env where
  is_git_repo : Bool
  stage_all_changes : Bool
  git_diff : Bool → String
  gemini_api_key : String
  prompt_input : String
  confirm_answer : Bool
  commit_ok : Bool
  llm : LLMResult
  persist_ok : Bool

/-- Exit codes for different error types (cli.py lines 24-33). -/
def EXIT_SUCCESS : Nat := 0

def EXIT_NOT_GIT_REPO : Nat := 1

def EXIT_STAGE_FAILED : Nat := 2

def EXIT_NO_CHANGES : Nat := 3

def EXIT_API_KEY_MISSING : Nat := 10

def EXIT_API_KEY_INVALID : Nat := 11

def EXIT_QUOTA_EXCEEDED : Nat := 12

def EXIT_API_ERROR : Nat := 13

def EXIT_COMMIT_FAILED : Nat := 20

def EXIT_UNKNOWN_ERROR : Nat := 99

/-- The exit code chosen by the except-clauses of `generate`
(cli.py lines 176-196): one handler per error kind, in source order. -/
def exitCodeOf : LLMError → Nat
  | .apiKeyMissing => EXIT_API_KEY_MISSING
  | .apiKeyInvalid => EXIT_API_KEY_INVALID
  | .quotaExceeded => EXIT_QUOTA_EXCEEDED
  | .apiRequest => EXIT_API_ERROR
  | .clientError => EXIT_UNKNOWN_ERROR
  | .unexpected => EXIT_UNKNOWN_ERROR

/-- `print_error` (cli.py lines 42-45): the stderr line it produces. -/
def print_error (message : String) (error_code : Option String) : String :=
  let codePre := match error_code with
    | some c => "[" ++ c ++ "] "
    | none => ""
  "[bold red]Error:[/bold red] " ++ codePre ++ message

/-- The result of one run: the host-process exit code and the event trace. -/
structure Outcome where
  exitCode : Nat
  trace : List Ev
deriving Repr

/-- Everything written to standard output, in order. -/
def stdoutOf : List Ev → List String
  | [] => []
  | .stdoutWrite s :: es => s :: stdoutOf es
  | _ :: es => stdoutOf es

def Outcome.stdoutLines (o : Outcome) : List String := stdoutOf o.trace

/-- Number of LLM-backend constructions/invocations in a trace. -/
def countBackend : List Ev → Nat
  | [] => 0
  | .backend _ _ _ _ :: es => countBackend es + 1
  | _ :: es => countBackend es

/-- Number of interactive API-key prompts in a trace. -/
def countPrompt : List Ev → Nat
  | [] => 0
  | .promptKey :: es => countPrompt es + 1
  | _ :: es => countPrompt es

/-- Number of interactive commit confirmations in a trace. -/
def countConfirm : List Ev → Nat
  | [] => 0
  | .confirmAsk :: es => countConfirm es + 1
  | _ :: es => countConfirm es

/-- Number of `commit_changes` calls in a trace. -/
def countCommit : List Ev → Nat
  | [] => 0
  | .commitCall _ :: es => countCommit es + 1
  | _ :: es => countCommit es

/-- The staging and diff events of a trace, in order. -/
def stageDiffEvents : List Ev → List Ev
  | [] => []
  | .stageAll :: es => .stageAll :: stageDiffEvents es
  | .getDiff b :: es => .getDiff b :: stageDiffEvents es
  | _ :: es => stageDiffEvents es

/-- The try-block of `generate` from line 140 on: generation, then either the
print-only stdout write or the interactive panel / confirmation / commit,
with the except-clauses mapping each raised error kind to its exit code.
`diff` and `current_key` are the values in scope at line 140.  The returned
trace holds only the events of this block; `generate` prepends the earlier
ones. -/
def generateMessagePhase (args : Args) (env : Env) (diff : String) (current_key : String) : Outcome :=
  if args.print_only then
    match env.llm with
    | .success message =>
      { exitCode := EXIT_SUCCESS,
        trace := [Ev.backend args.provider args.model current_key diff, Ev.stdoutWrite message] }
    | .failure e =>
      { exitCode := exitCodeOf e,
        trace := [Ev.backend args.provider args.model current_key diff, Ev.llmErrorReport e] }
  else
    let t := [Ev.statusSpin ("[bold green]Generating commit message with " ++ args.provider ++ "...[/bold green]"),
              Ev.backend args.provider args.model current_key diff]
    match env.llm with
    | .failure e =>
      { exitCode := exitCodeOf e, trace := t ++ [Ev.llmErrorReport e] }
    | .success message =>
      let t := t ++ [Ev.panelShow message]
      let r := if args.yes then (true, t) else (env.confirm_answer, t ++ [Ev.confirmAsk])
      let should_commit := r.1
      let t := r.2
      if should_commit then
        let t := t ++ [Ev.commitCall message]
        if env.commit_ok then
          { exitCode := EXIT_SUCCESS,
            trace := t ++ [Ev.stderrWrite "[bold green]Success![/bold green] Changes committed."] }
        else
          { exitCode := EXIT_COMMIT_FAILED,
            trace := t ++ [Ev.stderrWrite (print_error "Failed to commit changes." (some "COMMIT_FAILED"))] }
      else
        { exitCode := EXIT_SUCCESS,
          trace := t ++ [Ev.stderrWrite "[yellow]Operation aborted.[/yellow]"] }

/-- The `generate` command (cli.py lines 48-196), line by line. -/
def generate (args : Args) (env : Env) : Outcome :=
  if !env.is_git_repo then
    { exitCode := EXIT_NOT_GIT_REPO,
      trace := [Ev.stderrWrite (print_error "Not a git repository. Please run this command inside a git repository." (some "NOT_GIT_REPO"))] }
  else
    let t := if !args.print_only then
        [Ev.statusSpin "[bold green]Staging all changes...[/bold green]", Ev.stageAll]
      else
        [Ev.stageAll]
    if !env.stage_all_changes then
      { exitCode := EXIT_STAGE_FAILED,
        trace := t ++ [Ev.stderrWrite (print_error "Failed to stage changes." (some "STAGE_FAILED"))] }
    else
      let t := if !args.print_only then
          t ++ [Ev.statusSpin "[bold green]Reading staged changes...[/bold green]", Ev.getDiff true]
        else
          t ++ [Ev.getDiff true]
      let diff := env.git_diff true
      if diff.isEmpty then
        { exitCode := EXIT_NO_CHANGES,
          trace := t ++ [Ev.stderrWrite (print_error "No changes found. Make sure you have modified files in the repository." (some "NO_CHANGES"))] }
      else if args.provider ≠ "gemini" then
        { exitCode := EXIT_UNKNOWN_ERROR,
          trace := t ++ [Ev.stderrWrite (print_error ("Provider \x27" ++ args.provider ++ "\x27 is not supported. Use \x27gemini\x27.") (some "UNSUPPORTED_PROVIDER"))] }
      else
        let current_key := env.gemini_api_key
        if current_key.isEmpty then
          if args.print_only then
            { exitCode := EXIT_API_KEY_MISSING,
              trace := t ++ [Ev.stderrWrite (print_error "GEMINI_API_KEY is not set. Please set the environment variable or configure it in VS Code." (some "API_KEY_MISSING"))] }
          else
            let t := t ++ [Ev.stderrWrite "[yellow]Missing GEMINI_API_KEY.[/yellow]", Ev.promptKey]
            let current_key := env.prompt_input
            if !current_key.isEmpty then
              let t := t ++ [Ev.persistKey "GEMINI_API_KEY" current_key,
                             Ev.stderrWrite "[green]API Key saved successfully to .env[/green]"]
              let o := generateMessagePhase args env diff current_key
              { exitCode := o.exitCode, trace := t ++ o.trace }
            else
              { exitCode := EXIT_API_KEY_MISSING,
                trace := t ++ [Ev.stderrWrite (print_error ("GEMINI_API_KEY is required to use " ++ args.provider ++ ".") (some "API_KEY_MISSING"))] }
        else
          let o := generateMessagePhase args env diff current_key
          { exitCode := o.exitCode, trace := t ++ o.trace }

/-- The `version` command (cli.py lines 199-202). -/
def version : Outcome :=
  { exitCode := EXIT_SUCCESS, trace := [Ev.stderrWrite "Auto-Commit v1.0.0"] }

/-- A fully healthy environment: repository present, staging works, non-empty
staged diff, credential set, prompt would return a value, user confirms,
commit succeeds, LLM succeeds. -/
def envOk : Env :=
  { is_git_repo := true
    stage_all_changes := true
    git_diff := fun _ => "diff --git a/f b/f"
    gemini_api_key := "key"
    prompt_input := "entered-key"
    confirm_answer := true
    commit_ok := true
    llm := .success "feat: add x"
    persist_ok := true }

/-- The defaults with the print-only switch set. -/
def argsPO : Args :=
  { provider := "gemini", model := none, yes := false, staged := true, print_only := true }

/-- An invocation selecting an unsupported provider. -/
def argsBad : Args :=
  { provider := "openai", model := none, yes := false, staged := true, print_only := false }

example : (generate Args.defaults envOk).exitCode = 0 := by decide

example : (generate argsPO envOk).stdoutLines = ["feat: add x"] := by decide

example : (generate Args.defaults { envOk with is_git_repo := false }).exitCode = 1 := by decide

example : (generate argsPO { envOk with gemini_api_key := "" }).exitCode = 10 := by decide

example : (generate argsBad envOk).exitCode = 99 := by decide

theorem stdoutOf_append (a b : List Ev) :
    stdoutOf (a ++ b) = stdoutOf a ++ stdoutOf b := by
  induction a with
  | nil => rfl
  | cons e es ih => cases e <;> simp [stdoutOf, ih]

theorem countBackend_append (a b : List Ev) :
    countBackend (a ++ b) = countBackend a + countBackend b := by
  induction a with
  | nil => simp [countBackend]
  | cons e es ih => cases e <;> simp [countBackend, ih] <;> omega

theorem countPrompt_append (a b : List Ev) :
    countPrompt (a ++ b) = countPrompt a + countPrompt b := by
  induction a with
  | nil => simp [countPrompt]
  | cons e es ih => cases e <;> simp [countPrompt, ih] <;> omega

theorem countConfirm_append (a b : List Ev) :
    countConfirm (a ++ b) = countConfirm a + countConfirm b := by
  induction a with
  | nil => simp [countConfirm]
  | cons e es ih => cases e <;> simp [countConfirm, ih] <;> omega

theorem countCommit_append (a b : List Ev) :
    countCommit (a ++ b) = countCommit a + countCommit b := by
  induction a with
  | nil => simp [countCommit]
  | cons e es ih => cases e <;> simp [countCommit, ih] <;> omega

theorem stageDiffEvents_append (a b : List Ev) :
    stageDiffEvents (a ++ b) = stageDiffEvents a ++ stageDiffEvents b := by
  induction a with
  | nil => rfl
  | cons e es ih => cases e <;> simp [stageDiffEvents, ih]

theorem phase_countPrompt (args : Args) (env : Env) (d k : String) :
    countPrompt (generateMessagePhase args env d k).trace = 0 := by
  unfold generateMessagePhase
  cases env.llm <;> cases args.print_only <;> cases args.yes <;>
    cases env.confirm_answer <;> cases env.commit_ok <;>
      simp [countPrompt]

theorem phase_countBackend (args : Args) (env : Env) (d k : String) :
    countBackend (generateMessagePhase args env d k).trace = 1 := by
  unfold generateMessagePhase
  cases env.llm <;> cases args.print_only <;> cases args.yes <;>
    cases env.confirm_answer <;> cases env.commit_ok <;>
      simp [countBackend]

theorem phase_stageDiffEvents (args : Args) (env : Env) (d k : String) :
    stageDiffEvents (generateMessagePhase args env d k).trace = [] := by
  unfold generateMessagePhase
  cases env.llm <;> cases args.print_only <;> cases args.yes <;>
    cases env.confirm_answer <;> cases env.commit_ok <;>
      simp [stageDiffEvents]

theorem phase_stdoutOf (args : Args) (env : Env) (h : args.print_only = false) (d k : String) :
    stdoutOf (generateMessagePhase args env d k).trace = [] := by
  unfold generateMessagePhase
  cases env.llm <;> cases args.yes <;> cases env.confirm_answer <;> cases env.commit_ok <;>
    simp [stdoutOf, h]

theorem phase_backend_diff (args : Args) (env : Env) (d k : String)
    (p : String) (m : Option String) (kk dd : String) :
    Ev.backend p m kk dd ∈ (generateMessagePhase args env d k).trace → dd = d := by
  unfold generateMessagePhase
  cases env.llm <;> cases args.print_only <;> cases args.yes <;>
    cases env.confirm_answer <;> cases env.commit_ok <;>
      · intro h
        simp_all

/-- C1: whenever the generation backend raises one of the five defined error
kinds, the run exits with the documented code of that kind (10, 11, 12, 13,
99 respectively); the first four codes are pairwise distinct and only the
generic client-error kind shares code 99 with the unsupported-provider exit.
Hypothesis h5 is the exact condition under which the backend is reached at
all: the credential resolves, or the run is interactive and the one-time
prompt returns a non-empty entry. -/
theorem C1_error_exit_codes (args : Args) (env : Env) (e : LLMError)
    (h1 : env.is_git_repo = true) (h2 : env.stage_all_changes = true)
    (h3 : (env.git_diff true).isEmpty = false) (h4 : args.provider = "gemini")
    (h5 : env.gemini_api_key.isEmpty = false ∨
      (args.print_only = false ∧ env.prompt_input.isEmpty = false))
    (h6 : env.llm = .failure e) :
    (generate args env).exitCode = exitCodeOf e ∧
    exitCodeOf .apiKeyMissing = 10 ∧ exitCodeOf .apiKeyInvalid = 11 ∧
    exitCodeOf .quotaExceeded = 12 ∧ exitCodeOf .apiRequest = 13 ∧
    exitCodeOf .clientError = EXIT_UNKNOWN_ERROR ∧ EXIT_UNKNOWN_ERROR = 99 := by
  refine ⟨?_, rfl, rfl, rfl, rfl, rfl, rfl⟩
  rcases h5 with hk | ⟨hpo, hpi⟩
  · cases hp : args.print_only <;>
      simp [generate, generateMessagePhase, h1, h2, h3, h4, hk, h6, hp]
  · cases hk : env.gemini_api_key.isEmpty <;>
      simp [generate, generateMessagePhase, h1, h2, h3, h4, h6, hpo, hpi, hk]

theorem C1_error_exit_codes_witness :
    (generate Args.defaults
        { envOk with gemini_api_key := "", llm := .failure .quotaExceeded }).exitCode
      = exitCodeOf .quotaExceeded ∧
    exitCodeOf .apiKeyMissing = 10 ∧ exitCodeOf .apiKeyInvalid = 11 ∧
    exitCodeOf .quotaExceeded = 12 ∧ exitCodeOf .apiRequest = 13 ∧
    exitCodeOf .clientError = EXIT_UNKNOWN_ERROR ∧ EXIT_UNKNOWN_ERROR = 99 :=
  C1_error_exit_codes Args.defaults
    { envOk with gemini_api_key := "", llm := .failure .quotaExceeded }
    .quotaExceeded (by decide) (by decide) (by decide) rfl (by decide) rfl

/-- C2: a print-only run in which every stage succeeds writes exactly the
generated message to standard output, exits 0, performs no commit and asks
no confirmation. -/
theorem C2_print_only_success (args : Args) (env : Env) (m : String)
    (h1 : env.is_git_repo = true) (h2 : env.stage_all_changes = true)
    (h3 : (env.git_diff true).isEmpty = false) (h4 : args.provider = "gemini")
    (h5 : env.gemini_api_key.isEmpty = false) (h6 : env.llm = .success m)
    (h7 : args.print_only = true) :
    (generate args env).stdoutLines = [m] ∧
    (generate args env).exitCode = EXIT_SUCCESS ∧
    countCommit (generate args env).trace = 0 ∧
    countConfirm (generate args env).trace = 0 := by
  simp [generate, generateMessagePhase, Outcome.stdoutLines, stdoutOf, countCommit,
    countConfirm, h1, h2, h3, h4, h5, h6, h7]

theorem C2_print_only_success_witness :
    (generate argsPO envOk).stdoutLines = ["feat: add x"] ∧
    (generate argsPO envOk).exitCode = EXIT_SUCCESS ∧
    countCommit (generate argsPO envOk).trace = 0 ∧
    countConfirm (generate argsPO envOk).trace = 0 :=
  C2_print_only_success argsPO envOk "feat: add x"
    (by decide) (by decide) (by decide) rfl (by decide) rfl rfl

/-- C3: a print-only run that reaches credential resolution with no
credential exits 10 without prompting and writes nothing to standard
output. -/
theorem C3_print_only_key_missing (args : Args) (env : Env)
    (h1 : env.is_git_repo = true) (h2 : env.stage_all_changes = true)
    (h3 : (env.git_diff true).isEmpty = false) (h4 : args.provider = "gemini")
    (h5 : env.gemini_api_key.isEmpty = true) (h7 : args.print_only = true) :
    (generate args env).exitCode = EXIT_API_KEY_MISSING ∧
    countPrompt (generate args env).trace = 0 ∧
    (generate args env).stdoutLines = [] := by
  simp [generate, Outcome.stdoutLines, stdoutOf, countPrompt, h1, h2, h3, h4, h5, h7]

theorem C3_print_only_key_missing_witness :
    (generate argsPO { envOk with gemini_api_key := "" }).exitCode = EXIT_API_KEY_MISSING ∧
    countPrompt (generate argsPO { envOk with gemini_api_key := "" }).trace = 0 ∧
    (generate argsPO { envOk with gemini_api_key := "" }).stdoutLines = [] :=
  C3_print_only_key_missing argsPO { envOk with gemini_api_key := "" }
    (by decide) (by decide) (by decide) rfl (by decide) rfl

/-- C4: a run over a valid repository with successful staging and an empty
staged diff exits 3 and never constructs or invokes the generation
backend. -/
theorem C4_empty_diff_no_backend (args : Args) (env : Env)
    (h1 : env.is_git_repo = true) (h2 : env.stage_all_changes = true)
    (h3 : (env.git_diff true).isEmpty = true) :
    (generate args env).exitCode = EXIT_NO_CHANGES ∧
    countBackend (generate args env).trace = 0 := by
  cases hp : args.print_only <;>
    simp [generate, countBackend, h1, h2, h3, hp]

theorem C4_empty_diff_no_backend_witness :
    (generate Args.defaults { envOk with git_diff := fun _ => "" }).exitCode = EXIT_NO_CHANGES ∧
    countBackend (generate Args.defaults { envOk with git_diff := fun _ => "" }).trace = 0 :=
  C4_empty_diff_no_backend Args.defaults { envOk with git_diff := fun _ => "" }
    (by decide) (by decide) (by decide)

/-- C5 counterexample: with an unsupported provider but no repository, the
run exits 1, not with the unsupported-provider code 99, because the
repository check precedes provider validation; so the claim does not hold
for every invocation with an unsupported provider. -/
theorem C5_counterexample :
    argsBad.provider ≠ "gemini" ∧
    (generate argsBad { envOk with is_git_repo := false }).exitCode ≠ EXIT_UNKNOWN_ERROR := by
  decide

/-- C5 (amended): with an unsupported provider the generation backend is
never constructed or invoked; and when the repository is valid, staging
succeeds and the staged diff is non-empty, the run exits with the
unsupported-provider code 99. -/
theorem C5_unsupported_provider (args : Args) (env : Env)
    (hp : args.provider ≠ "gemini") :
    countBackend (generate args env).trace = 0 ∧
    (env.is_git_repo = true → env.stage_all_changes = true →
      (env.git_diff true).isEmpty = false →
      (generate args env).exitCode = EXIT_UNKNOWN_ERROR) := by
  constructor
  · simp only [generate]
    split_ifs <;> simp_all [countBackend]
  · intro h1 h2 h3
    cases hpo : args.print_only <;>
      simp [generate, h1, h2, h3, hp, hpo]

theorem C5_unsupported_provider_witness :
    countBackend (generate argsBad envOk).trace = 0 ∧
    (generate argsBad envOk).exitCode = EXIT_UNKNOWN_ERROR :=
  ⟨(C5_unsupported_provider argsBad envOk (by decide)).1,
   (C5_unsupported_provider argsBad envOk (by decide)).2 (by decide) (by decide) (by decide)⟩

/-- An otherwise healthy environment whose credential is unset. -/
def envNoKey : Env := { envOk with gemini_api_key := "" }

/-- C6: an interactive run reaching credential resolution with no credential
prompts exactly once; an empty entry exits 10, a non-empty entry is
persisted to the store and the pipeline continues to generation. -/
theorem C6_interactive_prompt_once (args : Args) (env : Env)
    (h1 : env.is_git_repo = true) (h2 : env.stage_all_changes = true)
    (h3 : (env.git_diff true).isEmpty = false) (h4 : args.provider = "gemini")
    (h5 : env.gemini_api_key.isEmpty = true) (h6 : args.print_only = false) :
    countPrompt (generate args env).trace = 1 ∧
    (env.prompt_input.isEmpty = true →
      (generate args env).exitCode = EXIT_API_KEY_MISSING) ∧
    (env.prompt_input.isEmpty = false →
      Ev.persistKey "GEMINI_API_KEY" env.prompt_input ∈ (generate args env).trace ∧
      countBackend (generate args env).trace = 1) := by
  refine ⟨?_, ?_, ?_⟩
  · cases hpi : env.prompt_input.isEmpty <;>
      simp [generate, countPrompt_append, phase_countPrompt, countPrompt,
        h1, h2, h3, h4, h5, h6, hpi]
  · intro hpi
    simp [generate, h1, h2, h3, h4, h5, h6, hpi]
  · intro hpi
    refine ⟨?_, ?_⟩
    · simp [generate, h1, h2, h3, h4, h5, h6, hpi]
    · simp [generate, countBackend_append, phase_countBackend, countBackend,
        h1, h2, h3, h4, h5, h6, hpi]

theorem C6_interactive_prompt_once_witness :
    countPrompt (generate Args.defaults envNoKey).trace = 1 ∧
    Ev.persistKey "GEMINI_API_KEY" envNoKey.prompt_input
      ∈ (generate Args.defaults envNoKey).trace ∧
    countBackend (generate Args.defaults envNoKey).trace = 1 :=
  ⟨(C6_interactive_prompt_once Args.defaults envNoKey
      (by decide) (by decide) (by decide) rfl (by decide) rfl).1,
   ((C6_interactive_prompt_once Args.defaults envNoKey
      (by decide) (by decide) (by decide) rfl (by decide) rfl).2.2 (by decide)).1,
   ((C6_interactive_prompt_once Args.defaults envNoKey
      (by decide) (by decide) (by decide) rfl (by decide) rfl).2.2 (by decide)).2⟩

set_option maxHeartbeats 1000000 in
/-- C7: in an interactive run reaching confirmation, declining (without the
unconditional-accept flag) makes no commit and exits 0; accepting (or that
flag) with a failing commit operation exits 20.  Hypothesis h5 is the exact
condition under which an interactive run reaches confirmation: the
credential resolves, or the one-time prompt returns a non-empty entry. -/
theorem C7_confirm_and_commit (args : Args) (env : Env) (m : String)
    (h1 : env.is_git_repo = true) (h2 : env.stage_all_changes = true)
    (h3 : (env.git_diff true).isEmpty = false) (h4 : args.provider = "gemini")
    (h5 : env.gemini_api_key.isEmpty = false ∨ env.prompt_input.isEmpty = false)
    (h6 : args.print_only = false) (hm : env.llm = .success m) :
    (args.yes = false → env.confirm_answer = false →
      countCommit (generate args env).trace = 0 ∧
      (generate args env).exitCode = EXIT_SUCCESS) ∧
    ((args.yes = true ∨ env.confirm_answer = true) → env.commit_ok = false →
      (generate args env).exitCode = EXIT_COMMIT_FAILED) := by
  have hks : env.gemini_api_key.isEmpty = false ∨
      (env.gemini_api_key.isEmpty = true ∧ env.prompt_input.isEmpty = false) := by
    cases hk : env.gemini_api_key.isEmpty
    · exact Or.inl rfl
    · rcases h5 with h5 | hpi
      · exact absurd h5 (by simp [hk])
      · exact Or.inr ⟨rfl, hpi⟩
  constructor
  · intro hy hc
    rcases hks with hk | ⟨hk, hpi⟩
    · simp [generate, generateMessagePhase, countCommit_append, countCommit,
        h1, h2, h3, h4, hk, h6, hm, hy, hc]
    · simp [generate, generateMessagePhase, countCommit_append, countCommit,
        h1, h2, h3, h4, hk, hpi, h6, hm, hy, hc]
  · intro hy hc
    rcases hy with hy | hy <;> rcases hks with hk | ⟨hk, hpi⟩
    · simp [generate, generateMessagePhase, h1, h2, h3, h4, hk, h6, hm, hy, hc]
    · simp [generate, generateMessagePhase, h1, h2, h3, h4, hk, hpi, h6, hm, hy, hc]
    · cases hyy : args.yes <;>
        simp [generate, generateMessagePhase, h1, h2, h3, h4, hk, h6, hm, hy, hc, hyy]
    · cases hyy : args.yes <;>
        simp [generate, generateMessagePhase, h1, h2, h3, h4, hk, hpi, h6, hm, hy, hc, hyy]

/-- The credential-less environment with a declining user: the key comes
from the one-time prompt and the user then declines the commit. -/
def envDecline : Env := { envOk with gemini_api_key := "", confirm_answer := false }

theorem C7_confirm_and_commit_witness :
    countCommit (generate Args.defaults envDecline).trace = 0 ∧
    (generate Args.defaults envDecline).exitCode = EXIT_SUCCESS :=
  (C7_confirm_and_commit Args.defaults envDecline "feat: add x"
    (by decide) (by decide) (by decide) rfl (by decide) rfl rfl).1 rfl (by decide)

set_option maxHeartbeats 1000000 in
/-- C8: the staged flag is inert: flipping it never changes the outcome, all
changes are staged before the single diff read, and the diff read (hence
the one handed to generation) always passes staged equal to true. -/
theorem C8_staged_flag_inert (args : Args) (env : Env) (b : Bool)
    (p : String) (m : Option String) (k d : String)
    (h1 : env.is_git_repo = true) (h2 : env.stage_all_changes = true) :
    generate { args with staged := b } env = generate args env ∧
    stageDiffEvents (generate args env).trace = [Ev.stageAll, Ev.getDiff true] ∧
    (Ev.backend p m k d ∈ (generate args env).trace → d = env.git_diff true) := by
  refine ⟨?_, ?_, ?_⟩
  · cases args
    rfl
  · simp only [generate]
    split_ifs <;>
      simp_all [stageDiffEvents_append, phase_stageDiffEvents, stageDiffEvents]
  · simp only [generate]
    split_ifs <;> intro h <;> simp at h <;>
      exact phase_backend_diff _ _ _ _ _ _ _ _ h

theorem C8_staged_flag_inert_witness :
    generate { Args.defaults with staged := false } envOk = generate Args.defaults envOk ∧
    stageDiffEvents (generate Args.defaults envOk).trace = [Ev.stageAll, Ev.getDiff true] ∧
    "diff --git a/f b/f" = envOk.git_diff true :=
  ⟨(C8_staged_flag_inert Args.defaults envOk false
      "gemini" none "key" "diff --git a/f b/f" (by decide) (by decide)).1,
   (C8_staged_flag_inert Args.defaults envOk false
      "gemini" none "key" "diff --git a/f b/f" (by decide) (by decide)).2.1,
   (C8_staged_flag_inert Args.defaults envOk false
      "gemini" none "key" "diff --git a/f b/f" (by decide) (by decide)).2.2 (by decide)⟩

/-- C9: outside print-only mode nothing is ever written to standard output;
panels, status text, notices and diagnostics all go to the stderr console,
and the version command writes nothing to standard output either. -/
theorem C9_interactive_stdout_silent (args : Args) (env : Env)
    (h : args.print_only = false) :
    (generate args env).stdoutLines = [] ∧ version.stdoutLines = [] := by
  constructor
  · simp only [generate, Outcome.stdoutLines]
    split_ifs <;>
      simp_all [stdoutOf_append, phase_stdoutOf, stdoutOf]
  · rfl

theorem C9_interactive_stdout_silent_witness :
    (generate Args.defaults envOk).stdoutLines = [] ∧ version.stdoutLines = [] :=
  C9_interactive_stdout_silent Args.defaults envOk rfl

/-- C10: when a non-empty credential is entered at the prompt, the result of
persisting it is never inspected: the run is identical whatever the store
reports, the saved-successfully notice is printed regardless, and
generation proceeds. -/
theorem C10_persist_result_unchecked (args : Args) (env : Env) (b : Bool)
    (h1 : env.is_git_repo = true) (h2 : env.stage_all_changes = true)
    (h3 : (env.git_diff true).isEmpty = false) (h4 : args.provider = "gemini")
    (h5 : env.gemini_api_key.isEmpty = true) (h6 : args.print_only = false)
    (h7 : env.prompt_input.isEmpty = false) :
    generate args { env with persist_ok := b } = generate args env ∧
    Ev.stderrWrite "[green]API Key saved successfully to .env[/green]"
      ∈ (generate args env).trace ∧
    countBackend (generate args env).trace = 1 := by
  refine ⟨?_, ?_, ?_⟩
  · cases env
    rfl
  · simp [generate, h1, h2, h3, h4, h5, h6, h7]
  · simp [generate, countBackend_append, phase_countBackend, countBackend,
      h1, h2, h3, h4, h5, h6, h7]

theorem C10_persist_result_unchecked_witness :
    generate Args.defaults { envNoKey with persist_ok := false }
      = generate Args.defaults envNoKey ∧
    Ev.stderrWrite "[green]API Key saved successfully to .env[/green]"
      ∈ (generate Args.defaults envNoKey).trace ∧
    countBackend (generate Args.defaults envNoKey).trace = 1 :=
  C10_persist_result_unchecked Args.defaults envNoKey false
    (by decide) (by decide) (by decide) rfl (by decide) rfl (by decide)

end AutoCommit
